import Mathlib

/-!
Shallow embedding of the per-tick creep engine in `src/lib.rs`.

The host world (Screeps API) is modelled as an explicit `World` value: every
query or action the code performs on a live object becomes a field of `World`
keyed by the object's numeric id, and every action outcome is an environment
input.  The thread-local `CREEP_INFO` map becomes a function `Registry` from
unit names to records, and `Memory.creeps` becomes a list of persisted names.
-/

/-- Role tag stored per creep, `CreepRole` in the source. -/
inductive CreepRole
  | Builder
  | Worker
deriving DecidableEq

/-- Task tag stored per creep, `CreepTarget` in the source.  Object ids are
modelled as naturals. -/
inductive CreepTarget
  | Upgrade (id : Nat)
  | Harvest (id : Nat)
  | Build (id : Nat)
  | FillSpawn (id : Nat)
deriving DecidableEq

/-- One record of the `CREEP_INFO` map: `(CreepRole, Option<CreepTarget>)`. -/
abbrev CreepRecord := CreepRole × Option CreepTarget

/-- The `CREEP_INFO` thread-local map, keyed by creep name. -/
abbrev Registry := String → Option CreepRecord

/-- `HashMap::insert`: overwrite the entry under `n`. -/
def regInsert (info : Registry) (n : String) (r : CreepRecord) : Registry :=
  fun m => if m = n then some r else info m

/-- Outcome of a world action (`upgrade_controller`, `harvest`, `build`,
`transfer`): success, `ErrorCode::NotInRange`, or any other error code. -/
inductive ActionResult
  | ok
  | notInRange
  | otherError
deriving DecidableEq

/-- One owned spawn as seen from room `find(MY_SPAWNS)`: its id and the value
of `store().get_free_capacity(Some(Energy))`. -/
structure RoomSpawnInfo where
  id : Nat
  freeCapacity : Nat
deriving DecidableEq

/-- Host world state for one creep's tick, read through the Screeps API.
Resolution of stored ids (`ObjectId::resolve`), action outcomes, adjacency,
and the room `find` results are all explicit inputs. -/
structure World where
  controllerLive : Nat → Bool
  sourceLive : Nat → Bool
  siteLive : Nat → Bool
  spawnLive : Nat → Bool
  upgradeResult : Nat → ActionResult
  harvestResult : Nat → ActionResult
  buildResult : Nat → ActionResult
  transferResult : Nat → ActionResult
  nearSource : Nat → Bool
  constructionSites : List (Option Nat)
  roomController : Option Nat
  mySpawns : List RoomSpawnInfo
  sourcesActive : List Nat

/-- The data `run_creep` reads from the `Creep` handle: its name, whether it
is still spawning, and its energy store (used and free capacity). -/
structure Creep where
  name : String
  spawning : Bool
  usedEnergy : Nat
  freeEnergy : Nat
deriving DecidableEq

/-- A `move_to` command issued toward a target object. -/
inductive MoveCmd
  | toController (id : Nat)
  | toSource (id : Nat)
  | toSite (id : Nat)
  | toSpawn (id : Nat)
deriving DecidableEq

/-- Observable side effects of one `run_creep` call: `move_to` commands,
number of `warn!` lines, and `say` broadcasts. -/
structure Effects where
  moves : List MoveCmd
  warns : Nat
  sayLines : List String
deriving DecidableEq

/-- No effects. -/
def Effects.empty : Effects := { moves := [], warns := 0, sayLines := [] }

/-- The string used by `say_role`. -/
def roleName : CreepRole → String
  | CreepRole.Builder => "Builder"
  | CreepRole.Worker => "Worker"

/-- The `Some(CreepTarget::Upgrade(..))` arm of `run_creep` (guard already
passed): resolve the controller; on resolution failure clear the task; run
`upgrade_controller` and interpret the outcome. -/
def runUpgradeArm (w : World) (role : CreepRole) (cid : Nat) :
    Option CreepTarget × Effects :=
  if w.controllerLive cid then
    match w.upgradeResult cid with
    | ActionResult.ok =>
        (some (CreepTarget.Upgrade cid),
         { moves := [], warns := 0, sayLines := [roleName role] })
    | ActionResult.notInRange =>
        (some (CreepTarget.Upgrade cid),
         { moves := [MoveCmd.toController cid], warns := 0, sayLines := [roleName role] })
    | ActionResult.otherError =>
        (none, { moves := [], warns := 1, sayLines := [roleName role] })
  else
    (none, { moves := [], warns := 0, sayLines := [roleName role] })

/-- The `Some(CreepTarget::Harvest(..))` arm of `run_creep`: resolve the
source; if adjacent run `harvest` (any error clears the task with a warning),
otherwise issue `move_to`. -/
def runHarvestArm (w : World) (role : CreepRole) (sid : Nat) :
    Option CreepTarget × Effects :=
  if w.sourceLive sid then
    if w.nearSource sid then
      match w.harvestResult sid with
      | ActionResult.ok =>
          (some (CreepTarget.Harvest sid),
           { moves := [], warns := 0, sayLines := [roleName role] })
      | ActionResult.notInRange =>
          (none, { moves := [], warns := 1, sayLines := [roleName role] })
      | ActionResult.otherError =>
          (none, { moves := [], warns := 1, sayLines := [roleName role] })
    else
      (some (CreepTarget.Harvest sid),
       { moves := [MoveCmd.toSource sid], warns := 0, sayLines := [roleName role] })
  else
    (none, { moves := [], warns := 0, sayLines := [roleName role] })

/-- The `Some(CreepTarget::Build(..))` arm of `run_creep`. -/
def runBuildArm (w : World) (role : CreepRole) (bid : Nat) :
    Option CreepTarget × Effects :=
  if w.siteLive bid then
    match w.buildResult bid with
    | ActionResult.ok =>
        (some (CreepTarget.Build bid),
         { moves := [], warns := 0, sayLines := [roleName role] })
    | ActionResult.notInRange =>
        (some (CreepTarget.Build bid),
         { moves := [MoveCmd.toSite bid], warns := 0, sayLines := [roleName role] })
    | ActionResult.otherError =>
        (none, { moves := [], warns := 1, sayLines := [roleName role] })
  else
    (none, { moves := [], warns := 0, sayLines := [roleName role] })

/-- The `Some(CreepTarget::FillSpawn(..))` arm of `run_creep`. -/
def runFillSpawnArm (w : World) (role : CreepRole) (pid : Nat) :
    Option CreepTarget × Effects :=
  if w.spawnLive pid then
    match w.transferResult pid with
    | ActionResult.ok =>
        (some (CreepTarget.FillSpawn pid),
         { moves := [], warns := 0, sayLines := [roleName role] })
    | ActionResult.notInRange =>
        (some (CreepTarget.FillSpawn pid),
         { moves := [MoveCmd.toSpawn pid], warns := 0, sayLines := [roleName role] })
    | ActionResult.otherError =>
        (none, { moves := [], warns := 1, sayLines := [roleName role] })
  else
    (none, { moves := [], warns := 0, sayLines := [roleName role] })

/-- The catch-all `_` arm of `run_creep`: select a new target from the room by
role and carried energy; when nothing qualifies the old target is kept
unchanged.  Mirrors lines 204-239 of `src/lib.rs`, including the warning when
the first construction site has no id. -/
def selectTarget (w : World) (role : CreepRole) (c : Creep)
    (old : Option CreepTarget) : Option CreepTarget × Effects :=
  if 0 < c.usedEnergy then
    match role with
    | CreepRole.Builder =>
      match w.constructionSites.head? with
      | some (some sid) =>
          (some (CreepTarget.Build sid),
           { moves := [], warns := 0, sayLines := [roleName role] })
      | some none =>
          (old, { moves := [], warns := 1, sayLines := [] })
      | none =>
        match w.roomController with
        | some cid =>
            (some (CreepTarget.Upgrade cid),
             { moves := [], warns := 0, sayLines := [roleName role] })
        | none => (old, Effects.empty)
    | CreepRole.Worker =>
      match w.mySpawns.head? with
      | some sp =>
        if 0 < sp.freeCapacity then
          (some (CreepTarget.FillSpawn sp.id),
           { moves := [], warns := 0, sayLines := [roleName role] })
        else
          match w.roomController with
          | some cid =>
              (some (CreepTarget.Upgrade cid),
               { moves := [], warns := 0, sayLines := [roleName role] })
          | none => (old, Effects.empty)
      | none => (old, Effects.empty)
  else
    match w.sourcesActive.head? with
    | some sid =>
        (some (CreepTarget.Harvest sid),
         { moves := [], warns := 0, sayLines := [roleName role] })
    | none => (old, Effects.empty)

/-- The `match target` statement of `run_creep`: each task arm is guarded by
its precondition (carried energy for Upgrade/Build/FillSpawn, free capacity
for Harvest); a failed guard falls through to the catch-all selector, as does
the no-task case. -/
def runArms (w : World) (c : Creep) (role : CreepRole)
    (tgt : Option CreepTarget) : Option CreepTarget × Effects :=
  match tgt with
  | some (CreepTarget.Upgrade cid) =>
    if 0 < c.usedEnergy then runUpgradeArm w role cid
    else selectTarget w role c tgt
  | some (CreepTarget.Harvest sid) =>
    if 0 < c.freeEnergy then runHarvestArm w role sid
    else selectTarget w role c tgt
  | some (CreepTarget.Build bid) =>
    if 0 < c.usedEnergy then runBuildArm w role bid
    else selectTarget w role c tgt
  | some (CreepTarget.FillSpawn pid) =>
    if 0 < c.usedEnergy then runFillSpawnArm w role pid
    else selectTarget w role c tgt
  | none => selectTarget w role c none

/-- `run_creep` from `src/lib.rs`: skip spawning creeps; look the creep up in
the registry with `entry(...).or_insert_with(|| (Worker, None))`; run the task
state machine; write the (possibly updated) record back.  Returns the updated
registry and the observable effects. -/
def run_creep (w : World) (c : Creep) (info : Registry) : Registry × Effects :=
  if c.spawning then (info, Effects.empty)
  else
    let r := (info c.name).getD (CreepRole.Worker, none)
    let res := runArms w c r.1 r.2
    (regInsert info c.name (r.1, res.1), res.2)

/-- The creep-processing loop of `game_loop`: `run_creep` over every live
creep, threading the registry. -/
def runCreeps (w : World) (creeps : List Creep) (info : Registry) : Registry :=
  creeps.foldl (fun acc c => (run_creep w c acc).1) info

/-- Body parts used by the fixed spawn body plan. -/
inductive BodyPart
  | move
  | carry
  | work
deriving DecidableEq

/-- `Part::cost()` for the parts the body plan uses (Screeps constants). -/
def BodyPart.cost : BodyPart → Nat
  | BodyPart.move => 50
  | BodyPart.carry => 50
  | BodyPart.work => 100

/-- The fixed body plan `[Move, Move, Carry, Work]`. -/
def creepBody : List BodyPart :=
  [BodyPart.move, BodyPart.move, BodyPart.carry, BodyPart.work]

/-- Total resource cost of the body plan (`body.iter().map(cost).sum()`). -/
def bodyCost : Nat := (creepBody.map BodyPart.cost).sum

/-- One owned spawn facility as the spawn loop sees it: the value of
`spawn.room().unwrap().energy_available()` and whether its single
`spawn_creep` call this tick would succeed. -/
structure GameSpawn where
  roomEnergyAvailable : Nat
  spawnSucceeds : Bool
deriving DecidableEq

/-- Generated creep name `format!("{}-{}", game::time(), additional)`. -/
def spawnName (time n : Nat) : String :=
  toString time ++ "-" ++ toString n

/-- Role assigned by parity of the in-tick sequence number `additional`. -/
def spawnRole (n : Nat) : CreepRole :=
  if n % 2 == 0 then CreepRole.Builder else CreepRole.Worker

/-- One iteration of the spawn loop for one facility: attempt only when the
room energy covers the body cost; on success insert a fresh record and bump
`additional`; on failure warn and leave `additional` alone.  The third
component records the attempt (`none` = no attempt; `some (name, role, ok)`
otherwise). -/
def spawnStep (time : Nat) (s : GameSpawn) (info : Registry) (n : Nat) :
    Registry × Nat × Option (String × CreepRole × Bool) :=
  if bodyCost ≤ s.roomEnergyAvailable then
    if s.spawnSucceeds then
      (regInsert info (spawnName time n) (spawnRole n, none), n + 1,
       some (spawnName time n, spawnRole n, true))
    else
      (info, n, some (spawnName time n, spawnRole n, false))
  else
    (info, n, none)

/-- The spawn loop of `game_loop` over all owned spawn facilities, threading
the registry and the `additional` counter and collecting one attempt record
per facility. -/
def runSpawnsAux (time : Nat) :
    List GameSpawn → Registry → Nat →
      Registry × Nat × List (Option (String × CreepRole × Bool))
  | [], info, n => (info, n, [])
  | s :: rest, info, n =>
    let step := spawnStep time s info n
    let restRes := runSpawnsAux time rest step.1 step.2.1
    (restRes.1, restRes.2.1, step.2.2 :: restRes.2.2)

/-- The memory-cleanup block of `game_loop`: when the tick counter is a
multiple of 1000, delete every `Memory.creeps` entry whose name is not a
currently-alive creep name; otherwise leave memory untouched. -/
def memoryCleanup (time : Nat) (alive : List String) (memory : List String) :
    List String :=
  if time % 1000 = 0 then
    memory.filter (fun nm => decide (nm ∈ alive))
  else
    memory

/-- `game_loop` from `src/lib.rs`: run every creep, then the spawn loop, then
(conditionally) the memory cleanup.  Returns the final registry and the final
persisted-memory key list. -/
def game_loop (time : Nat) (w : World) (creeps : List Creep)
    (spawns : List GameSpawn) (info : Registry) (memory : List String) :
    Registry × List String :=
  let reg1 := runCreeps w creeps info
  let reg2 := (runSpawnsAux time spawns reg1 0).1
  let memory1 := memoryCleanup time (creeps.map Creep.name) memory
  (reg2, memory1)

/-- Resolution of a stored task id against the world, kind by kind. -/
def resolves (w : World) : CreepTarget → Bool
  | CreepTarget.Upgrade i => w.controllerLive i
  | CreepTarget.Harvest i => w.sourceLive i
  | CreepTarget.Build i => w.siteLive i
  | CreepTarget.FillSpawn i => w.spawnLive i

/-- The guard (precondition) of each task arm in `run_creep`. -/
def precondHolds (c : Creep) : CreepTarget → Bool
  | CreepTarget.Upgrade _ => decide (0 < c.usedEnergy)
  | CreepTarget.Harvest _ => decide (0 < c.freeEnergy)
  | CreepTarget.Build _ => decide (0 < c.usedEnergy)
  | CreepTarget.FillSpawn _ => decide (0 < c.usedEnergy)

/-- The exact condition under which a task arm clears the task this tick
(given its precondition guard passed): the target fails to resolve, or the
action on the live target fails with a non-range error — and for Harvest,
where the action runs only when adjacent and every action error clears, any
non-ok harvest outcome while adjacent. -/
def armClears (w : World) : CreepTarget → Bool
  | CreepTarget.Upgrade i =>
      !w.controllerLive i || decide (w.upgradeResult i = ActionResult.otherError)
  | CreepTarget.Harvest i =>
      !w.sourceLive i ||
        (w.nearSource i && !(decide (w.harvestResult i = ActionResult.ok)))
  | CreepTarget.Build i =>
      !w.siteLive i || decide (w.buildResult i = ActionResult.otherError)
  | CreepTarget.FillSpawn i =>
      !w.spawnLive i || decide (w.transferResult i = ActionResult.otherError)

/-!  Concrete inputs used by counterexamples and witnesses. -/

/-- A world in which no id resolves and every room list is empty. -/
def emptyWorld : World :=
  { controllerLive := fun _ => false
    sourceLive := fun _ => false
    siteLive := fun _ => false
    spawnLive := fun _ => false
    upgradeResult := fun _ => ActionResult.ok
    harvestResult := fun _ => ActionResult.ok
    buildResult := fun _ => ActionResult.ok
    transferResult := fun _ => ActionResult.ok
    nearSource := fun _ => false
    constructionSites := []
    roomController := none
    mySpawns := []
    sourcesActive := [] }

/-- Room with a controller but no owned spawn. -/
def workerNoSpawnWorld : World := { emptyWorld with roomController := some 7 }

/-- A Worker creep carrying energy and holding no task. -/
def workerNoSpawnCreep : Creep :=
  { name := "w1", spawning := false, usedEnergy := 50, freeEnergy := 0 }

/-- Registry for the C1 counterexample. -/
def workerNoSpawnReg : Registry :=
  fun n => if n = "w1" then some (CreepRole.Worker, none) else none

/-- Room with one owned spawn that has free capacity (so re-selection would
pick FillSpawn) but whose controller id 5 does not resolve. -/
def clearedTickWorld : World :=
  { emptyWorld with mySpawns := [{ id := 3, freeCapacity := 10 }] }

/-- A Worker creep carrying energy, holding an Upgrade task on id 5. -/
def clearedTickCreep : Creep :=
  { name := "w2", spawning := false, usedEnergy := 50, freeEnergy := 0 }

/-- Registry for the C2 counterexample and witness. -/
def clearedTickReg : Registry :=
  fun n =>
    if n = "w2" then some (CreepRole.Worker, some (CreepTarget.Upgrade 5))
    else none

/-- Room where controller 5 resolves but upgrading it fails with a non-range
error, and one owned spawn with free capacity is available for re-selection. -/
def clearedErrWorld : World :=
  { emptyWorld with
    controllerLive := fun i => i == 5
    upgradeResult := fun _ => ActionResult.otherError
    mySpawns := [{ id := 3, freeCapacity := 10 }] }

/-- World where source 2 resolves, the creep is adjacent to it, and the
harvest action reports a not-in-range outcome. -/
def harvestRangeWorld : World :=
  { emptyWorld with
    sourceLive := fun i => i == 2
    nearSource := fun i => i == 2
    harvestResult := fun _ => ActionResult.notInRange }

/-- A creep with free capacity holding a Harvest task on source 2. -/
def harvestRangeCreep : Creep :=
  { name := "w4", spawning := false, usedEnergy := 0, freeEnergy := 50 }

/-- Registry for the C4 counterexample. -/
def harvestRangeReg : Registry :=
  fun n =>
    if n = "w4" then some (CreepRole.Worker, some (CreepTarget.Harvest 2))
    else none

/-- World where all four target ids resolve and every action reports a
not-in-range outcome. -/
def rangeWorld : World :=
  { emptyWorld with
    controllerLive := fun i => i == 9
    upgradeResult := fun _ => ActionResult.notInRange
    siteLive := fun i => i == 4
    buildResult := fun _ => ActionResult.notInRange
    spawnLive := fun i => i == 6
    transferResult := fun _ => ActionResult.notInRange
    sourceLive := fun i => i == 2 }

/-- An empty-handed creep holding an Upgrade task whose precondition fails. -/
def staleTaskCreep : Creep :=
  { name := "w5", spawning := false, usedEnergy := 0, freeEnergy := 50 }

/-- Registry for the C5 counterexample and witness. -/
def staleTaskReg : Registry :=
  fun n =>
    if n = "w5" then some (CreepRole.Worker, some (CreepTarget.Upgrade 5))
    else none

/-- World with one active source, used by the C5 witness. -/
def staleTaskWorld : World := { emptyWorld with sourcesActive := [2] }

/-- Creep and registry for the C6 witness. -/
def roleInvCreep : Creep :=
  { name := "w6", spawning := false, usedEnergy := 0, freeEnergy := 50 }

/-- Registry for the C6 witness, holding a Builder record. -/
def roleInvReg : Registry :=
  fun n =>
    if n = "w6" then some (CreepRole.Builder, some (CreepTarget.Build 4))
    else none

/-- Two spawn facilities: the first can afford the body, the second cannot. -/
def spawnsSample : List GameSpawn :=
  [{ roomEnergyAvailable := 300, spawnSucceeds := true },
   { roomEnergyAvailable := 100, spawnSucceeds := true }]

/-- Registry holding a stale record under the name a new spawn will reuse. -/
def staleNameReg : Registry :=
  fun n =>
    if n = "5-0" then some (CreepRole.Worker, some (CreepTarget.Harvest 1))
    else none

/-- Creep and registry for the C10 witness. -/
def frameCreep : Creep :=
  { name := "w10", spawning := false, usedEnergy := 0, freeEnergy := 50 }

/-- Registry for the C10 witness with a second, unrelated entry. -/
def frameReg : Registry :=
  fun n =>
    if n = "w10" then some (CreepRole.Worker, none)
    else if n = "other" then some (CreepRole.Builder, some (CreepTarget.Build 4))
    else none

/-!  Helper lemmas shared by the claim theorems. -/

/-- The spawn loop records exactly one attempt slot per facility. -/
theorem runSpawnsAux_length (time : Nat) (spawns : List GameSpawn)
    (info : Registry) (n : Nat) :
    ((runSpawnsAux time spawns info n).2.2).length = spawns.length := by
  induction spawns generalizing info n with
  | nil => rfl
  | cons hd tl ih => simp [runSpawnsAux, ih]

/-- One `run_creep` call never changes the role of an existing record. -/
theorem run_creep_preserves_role (w : World) (c : Creep) (info : Registry)
    (n : String) (role : CreepRole) (tgt : Option CreepTarget)
    (h : info n = some (role, tgt)) :
    ∃ tgt2, (run_creep w c info).1 n = some (role, tgt2) := by
  by_cases hsp : c.spawning
  · exact ⟨tgt, by simp [run_creep, hsp, h]⟩
  · by_cases hn : n = c.name
    · subst hn
      exact ⟨(runArms w c role tgt).1, by simp [run_creep, hsp, h, regInsert]⟩
    · exact ⟨tgt, by simp [run_creep, hsp, regInsert, hn, h]⟩

/-- The catch-all selector either keeps the old target or picks a target
whose arm precondition holds, provided the creep is carrying energy or has
free capacity. -/
theorem selectTarget_eq_or_precond (w : World) (role : CreepRole) (c : Creep)
    (old : Option CreepTarget)
    (hcap : 0 < c.usedEnergy ∨ 0 < c.freeEnergy) :
    (selectTarget w role c old).1 = old ∨
      ∀ u, (selectTarget w role c old).1 = some u → precondHolds c u = true := by
  unfold selectTarget
  by_cases hu : 0 < c.usedEnergy
  · cases role with
    | Builder =>
      cases hcs : w.constructionSites.head? with
      | some os =>
        cases os with
        | some sid =>
          right
          intro u h2
          simp [hu, hcs] at h2
          subst h2
          simp [precondHolds, hu]
        | none => left; simp [hu, hcs]
      | none =>
        cases hctl : w.roomController with
        | some cid =>
          right
          intro u h2
          simp [hu, hcs, hctl] at h2
          subst h2
          simp [precondHolds, hu]
        | none => left; simp [hu, hcs, hctl]
    | Worker =>
      cases hms : w.mySpawns.head? with
      | some sp =>
        by_cases hfc : 0 < sp.freeCapacity
        · right
          intro u h2
          simp [hu, hms, hfc] at h2
          subst h2
          simp [precondHolds, hu]
        · cases hctl : w.roomController with
          | some cid =>
            right
            intro u h2
            simp [hu, hms, hfc, hctl] at h2
            subst h2
            simp [precondHolds, hu]
          | none => left; simp [hu, hms, hfc, hctl]
      | none => left; simp [hu, hms]
  · have hf : 0 < c.freeEnergy := hcap.resolve_left hu
    cases hsa : w.sourcesActive.head? with
    | some sid =>
      right
      intro u h2
      simp [hu, hsa] at h2
      subst h2
      simp [precondHolds, hf]
    | none => left; simp [hu, hsa]

/-!  Claim theorems. -/

/-- C1 counterexample: a Worker carrying energy, with no task, in a room with
no owned spawn but with a controller (id 7), ends the tick with no task — the
code never falls back to the controller when the spawn list is empty, so the
claim's "if no such facility qualifies, it chooses the room's controller" is
false at this input. -/
theorem worker_no_spawn_counterexample :
    workerNoSpawnWorld.mySpawns = [] ∧
    workerNoSpawnWorld.roomController = some 7 ∧
    0 < workerNoSpawnCreep.usedEnergy ∧
    workerNoSpawnReg workerNoSpawnCreep.name = some (CreepRole.Worker, none) ∧
    (run_creep workerNoSpawnWorld workerNoSpawnCreep workerNoSpawnReg).1 "w1" =
      some (CreepRole.Worker, none) :=
  ⟨rfl, rfl, by decide, by decide, by decide⟩

/-- C1 (amended): for a Worker carrying energy with no current task, selection
looks only at the first owned spawn of the room: if the spawn list is empty
the unit stays idle even when a controller exists; if the first spawn has
free capacity the task becomes FillSpawn on it; if the first spawn is full
the task becomes Upgrade on the controller when one exists, and otherwise the
unit stays idle. -/
theorem worker_selection_amended (w : World) (c : Creep) (info : Registry)
    (hs : c.spawning = false)
    (hr : info c.name = some (CreepRole.Worker, none))
    (he : 0 < c.usedEnergy) :
    (w.mySpawns = [] →
      (run_creep w c info).1 c.name = some (CreepRole.Worker, none)) ∧
    (∀ sp rest, w.mySpawns = sp :: rest → 0 < sp.freeCapacity →
      (run_creep w c info).1 c.name =
        some (CreepRole.Worker, some (CreepTarget.FillSpawn sp.id))) ∧
    (∀ sp rest cid, w.mySpawns = sp :: rest → sp.freeCapacity = 0 →
      w.roomController = some cid →
      (run_creep w c info).1 c.name =
        some (CreepRole.Worker, some (CreepTarget.Upgrade cid))) ∧
    (∀ sp rest, w.mySpawns = sp :: rest → sp.freeCapacity = 0 →
      w.roomController = none →
      (run_creep w c info).1 c.name = some (CreepRole.Worker, none)) := by
  have hrc : (run_creep w c info).1 c.name =
      some (CreepRole.Worker, (selectTarget w CreepRole.Worker c none).1) := by
    simp [run_creep, hs, hr, runArms, regInsert]
  refine ⟨?_, ?_, ?_, ?_⟩
  · intro hms
    rw [hrc]
    simp [selectTarget, he, hms]
  · intro sp rest hms hfc
    rw [hrc]
    simp [selectTarget, he, hms, hfc]
  · intro sp rest cid hms hfc hctl
    rw [hrc]
    simp [selectTarget, he, hms, hfc, hctl]
  · intro sp rest hms hfc hctl
    rw [hrc]
    simp [selectTarget, he, hms, hfc, hctl]

/-- C1 witness: the amended theorem applied at the counterexample input, the
spawn-list-empty case. -/
theorem worker_selection_amended_witness :
    (run_creep workerNoSpawnWorld workerNoSpawnCreep workerNoSpawnReg).1
      workerNoSpawnCreep.name = some (CreepRole.Worker, none) :=
  (worker_selection_amended workerNoSpawnWorld workerNoSpawnCreep
    workerNoSpawnReg rfl (by decide) (by decide)).1 rfl

/-- C2 counterexample: a Worker carrying energy holds an Upgrade task whose
controller no longer resolves; the task is cleared this tick, and although
re-selection conditions allow a new task (the selector would pick FillSpawn
on spawn 3), the unit ends the tick with no task — clearing inside a task arm
never falls through to the selector in the same tick. -/
theorem cleared_same_tick_counterexample :
    precondHolds clearedTickCreep (CreepTarget.Upgrade 5) = true ∧
    resolves clearedTickWorld (CreepTarget.Upgrade 5) = false ∧
    (selectTarget clearedTickWorld CreepRole.Worker clearedTickCreep none).1 =
      some (CreepTarget.FillSpawn 3) ∧
    (run_creep clearedTickWorld clearedTickCreep clearedTickReg).1 "w2" =
      some (CreepRole.Worker, none) :=
  ⟨by decide, by decide, by decide, by decide⟩

/-- C2 (amended): whenever a task arm clears the task — the target fails to
resolve, the action on the live target fails with a non-range error, or the
harvest action on a live, adjacent source fails at all — the unit stays idle
for the rest of that tick; re-selection happens on the unit's next processing
tick, where the catch-all selector runs on the now-empty task. -/
theorem cleared_reselect_next_tick (w : World) (c : Creep) (info : Registry)
    (role : CreepRole) (t : CreepTarget)
    (hs : c.spawning = false)
    (hr : info c.name = some (role, some t))
    (hclear : armClears w t = true)
    (hpre : precondHolds c t = true) :
    (run_creep w c info).1 c.name = some (role, none) ∧
    (run_creep w c (run_creep w c info).1).1 c.name =
      some (role, (selectTarget w role c none).1) := by
  have h1 : (run_creep w c info).1 c.name = some (role, none) := by
    cases t with
    | Upgrade cid =>
      have hg : 0 < c.usedEnergy := by simpa [precondHolds] using hpre
      cases hl : w.controllerLive cid with
      | false =>
        simp [run_creep, hs, hr, runArms, hg, runUpgradeArm, hl, regInsert]
      | true =>
        have he : w.upgradeResult cid = ActionResult.otherError := by
          simpa [armClears, hl] using hclear
        simp [run_creep, hs, hr, runArms, hg, runUpgradeArm, hl, he, regInsert]
    | Harvest sid =>
      have hg : 0 < c.freeEnergy := by simpa [precondHolds] using hpre
      cases hl : w.sourceLive sid with
      | false =>
        simp [run_creep, hs, hr, runArms, hg, runHarvestArm, hl, regInsert]
      | true =>
        have hne : w.nearSource sid = true ∧
            ¬ w.harvestResult sid = ActionResult.ok := by
          simpa [armClears, hl] using hclear
        cases hhr : w.harvestResult sid with
        | ok => exact absurd hhr hne.2
        | notInRange =>
          simp [run_creep, hs, hr, runArms, hg, runHarvestArm, hl, hne.1, hhr,
            regInsert]
        | otherError =>
          simp [run_creep, hs, hr, runArms, hg, runHarvestArm, hl, hne.1, hhr,
            regInsert]
    | Build bid =>
      have hg : 0 < c.usedEnergy := by simpa [precondHolds] using hpre
      cases hl : w.siteLive bid with
      | false =>
        simp [run_creep, hs, hr, runArms, hg, runBuildArm, hl, regInsert]
      | true =>
        have he : w.buildResult bid = ActionResult.otherError := by
          simpa [armClears, hl] using hclear
        simp [run_creep, hs, hr, runArms, hg, runBuildArm, hl, he, regInsert]
    | FillSpawn pid =>
      have hg : 0 < c.usedEnergy := by simpa [precondHolds] using hpre
      cases hl : w.spawnLive pid with
      | false =>
        simp [run_creep, hs, hr, runArms, hg, runFillSpawnArm, hl, regInsert]
      | true =>
        have he : w.transferResult pid = ActionResult.otherError := by
          simpa [armClears, hl] using hclear
        simp [run_creep, hs, hr, runArms, hg, runFillSpawnArm, hl, he,
          regInsert]
  refine ⟨h1, ?_⟩
  set reg1 := (run_creep w c info).1 with hreg
  simp [run_creep, hs, h1, runArms, regInsert]

/-- C2 witness: a live controller whose upgrade action fails with a non-range
error — the tick after the clearing tick re-selects via the catch-all
selector. -/
theorem cleared_reselect_next_tick_witness :
    (run_creep clearedErrWorld clearedTickCreep
        (run_creep clearedErrWorld clearedTickCreep clearedTickReg).1).1
      clearedTickCreep.name =
      some (CreepRole.Worker,
        (selectTarget clearedErrWorld CreepRole.Worker clearedTickCreep none).1) :=
  (cleared_reselect_next_tick clearedErrWorld clearedTickCreep clearedTickReg
    CreepRole.Worker (CreepTarget.Upgrade 5) rfl (by decide) (by decide)
    (by decide)).2

/-- C3: the spawn loop records one attempt slot per owned facility, and the
slot holds an attempt exactly when the facility's available energy covers the
fixed body plan's cost. -/
theorem spawn_attempt_iff_energy (time : Nat) (spawns : List GameSpawn)
    (info : Registry) (n i : Nat) (s : GameSpawn)
    (hi : spawns[i]? = some s) :
    ((runSpawnsAux time spawns info n).2.2).length = spawns.length ∧
    ∃ o, ((runSpawnsAux time spawns info n).2.2)[i]? = some o ∧
      o.isSome = decide (bodyCost ≤ s.roomEnergyAvailable) := by
  refine ⟨runSpawnsAux_length time spawns info n, ?_⟩
  induction spawns generalizing info n i with
  | nil => simp at hi
  | cons hd tl ih =>
    cases i with
    | zero =>
      simp only [List.getElem?_cons_zero, Option.some.injEq] at hi
      subst hi
      refine ⟨(spawnStep time hd info n).2.2, ?_, ?_⟩
      · simp [runSpawnsAux]
      · unfold spawnStep
        by_cases hE : bodyCost ≤ hd.roomEnergyAvailable
        · cases hsucc : hd.spawnSucceeds <;> simp [hE, hsucc]
        · simp [hE]
    | succ j =>
      simp only [List.getElem?_cons_succ] at hi
      obtain ⟨o, ho, hio⟩ :=
        ih (spawnStep time hd info n).1 (spawnStep time hd info n).2.1 j hi
      exact ⟨o, by simpa [runSpawnsAux] using ho, hio⟩

/-- C3 witness: two facilities, the second of which cannot afford the body
plan; its slot records no attempt. -/
theorem spawn_attempt_iff_energy_witness :
    ((runSpawnsAux 7 spawnsSample (fun _ => none) 0).2.2).length =
      spawnsSample.length ∧
    ∃ o, ((runSpawnsAux 7 spawnsSample (fun _ => none) 0).2.2)[1]? = some o ∧
      o.isSome =
        decide (bodyCost ≤
          ({ roomEnergyAvailable := 100, spawnSucceeds := true } :
            GameSpawn).roomEnergyAvailable) :=
  spawn_attempt_iff_energy 7 spawnsSample (fun _ => none) 0 1
    { roomEnergyAvailable := 100, spawnSucceeds := true } (by decide)

/-- C4 counterexample: a Harvest task on a live, adjacent source whose
harvest action reports not-in-range is not recovered by a move: the code
logs a warning, issues no move command, and clears the task. -/
theorem harvest_notinrange_counterexample :
    harvestRangeWorld.harvestResult 2 = ActionResult.notInRange ∧
    resolves harvestRangeWorld (CreepTarget.Harvest 2) = true ∧
    harvestRangeWorld.nearSource 2 = true ∧
    (run_creep harvestRangeWorld harvestRangeCreep harvestRangeReg).1 "w4" =
      some (CreepRole.Worker, none) ∧
    (run_creep harvestRangeWorld harvestRangeCreep harvestRangeReg).2 =
      { moves := [], warns := 1, sayLines := ["Worker"] } :=
  ⟨rfl, by decide, by decide, by decide, by decide⟩

/-- C4 (amended): for Upgrade, Build and FillSpawn a not-in-range outcome is
recovered by a move toward the target with the task retained and no warning;
for Harvest the move is issued instead of the action whenever the unit is not
adjacent, and a not-in-range outcome from the harvest action itself is
treated like any other failure: a warning is logged and the task cleared. -/
theorem notinrange_recovery_amended (w : World) (role : CreepRole)
    (cid sid bid pid : Nat)
    (hcl : w.controllerLive cid = true)
    (hcu : w.upgradeResult cid = ActionResult.notInRange)
    (hbl : w.siteLive bid = true)
    (hbr : w.buildResult bid = ActionResult.notInRange)
    (hpl : w.spawnLive pid = true)
    (hpr : w.transferResult pid = ActionResult.notInRange)
    (hsl : w.sourceLive sid = true) :
    runUpgradeArm w role cid =
      (some (CreepTarget.Upgrade cid),
       { moves := [MoveCmd.toController cid], warns := 0,
         sayLines := [roleName role] }) ∧
    runBuildArm w role bid =
      (some (CreepTarget.Build bid),
       { moves := [MoveCmd.toSite bid], warns := 0,
         sayLines := [roleName role] }) ∧
    runFillSpawnArm w role pid =
      (some (CreepTarget.FillSpawn pid),
       { moves := [MoveCmd.toSpawn pid], warns := 0,
         sayLines := [roleName role] }) ∧
    (w.nearSource sid = false →
      runHarvestArm w role sid =
        (some (CreepTarget.Harvest sid),
         { moves := [MoveCmd.toSource sid], warns := 0,
           sayLines := [roleName role] })) ∧
    (w.nearSource sid = true →
      w.harvestResult sid = ActionResult.notInRange →
      runHarvestArm w role sid =
        (none, { moves := [], warns := 1, sayLines := [roleName role] })) := by
  refine ⟨?_, ?_, ?_, ?_, ?_⟩
  · simp [runUpgradeArm, hcl, hcu]
  · simp [runBuildArm, hbl, hbr]
  · simp [runFillSpawnArm, hpl, hpr]
  · intro hn
    simp [runHarvestArm, hsl, hn]
  · intro hn hhr
    simp [runHarvestArm, hsl, hn, hhr]

/-- C4 witness: the Upgrade case of the amended theorem at a concrete world
where every action reports not-in-range. -/
theorem notinrange_recovery_amended_witness :
    runUpgradeArm rangeWorld CreepRole.Worker 9 =
      (some (CreepTarget.Upgrade 9),
       { moves := [MoveCmd.toController 9], warns := 0,
         sayLines := [roleName CreepRole.Worker] }) :=
  (notinrange_recovery_amended rangeWorld CreepRole.Worker 9 2 4 6
    (by decide) rfl (by decide) rfl (by decide) rfl (by decide)).1

/-- C5 counterexample: a Worker holding an Upgrade task while carrying no
energy, in a room with no active source, keeps the very same task after the
tick, and that task fails its own precondition on the next check — so a unit
can be left holding a precondition-failing task. -/
theorem precond_retained_counterexample :
    precondHolds staleTaskCreep (CreepTarget.Upgrade 5) = false ∧
    (run_creep emptyWorld staleTaskCreep staleTaskReg).1 "w5" =
      some (CreepRole.Worker, some (CreepTarget.Upgrade 5)) :=
  ⟨by decide, by decide⟩

/-- C5 (amended): when a task's precondition fails the tick falls through to
the selector, so the recorded task afterwards is exactly the selector's
result on the old task: either the old task retained unchanged (which may
still fail its precondition) or a fresh choice; any fresh choice passes its
own precondition provided the unit has energy carried or free capacity. -/
theorem precond_fallthrough_amended (w : World) (c : Creep) (info : Registry)
    (role : CreepRole) (t : CreepTarget)
    (hs : c.spawning = false)
    (hr : info c.name = some (role, some t))
    (hpre : precondHolds c t = false)
    (hcap : 0 < c.usedEnergy ∨ 0 < c.freeEnergy) :
    (run_creep w c info).1 c.name =
      some (role, (selectTarget w role c (some t)).1) ∧
    ((selectTarget w role c (some t)).1 = some t ∨
      ∀ u, (selectTarget w role c (some t)).1 = some u →
        precondHolds c u = true) := by
  have h1 : (run_creep w c info).1 c.name =
      some (role, (selectTarget w role c (some t)).1) := by
    cases t with
    | Upgrade cid =>
      have hg : ¬ 0 < c.usedEnergy := by simpa [precondHolds] using hpre
      simp [run_creep, hs, hr, runArms, hg, regInsert]
    | Harvest sid =>
      have hg : ¬ 0 < c.freeEnergy := by simpa [precondHolds] using hpre
      simp [run_creep, hs, hr, runArms, hg, regInsert]
    | Build bid =>
      have hg : ¬ 0 < c.usedEnergy := by simpa [precondHolds] using hpre
      simp [run_creep, hs, hr, runArms, hg, regInsert]
    | FillSpawn pid =>
      have hg : ¬ 0 < c.usedEnergy := by simpa [precondHolds] using hpre
      simp [run_creep, hs, hr, runArms, hg, regInsert]
  exact ⟨h1, selectTarget_eq_or_precond w role c (some t) hcap⟩

/-- C5 witness: the empty-handed Worker with a stale Upgrade task, in a room
with an active source, ends the tick with the selector's choice. -/
theorem precond_fallthrough_amended_witness :
    (run_creep staleTaskWorld staleTaskCreep staleTaskReg).1
      staleTaskCreep.name =
      some (CreepRole.Worker,
        (selectTarget staleTaskWorld CreepRole.Worker staleTaskCreep
          (some (CreepTarget.Upgrade 5))).1) :=
  (precond_fallthrough_amended staleTaskWorld staleTaskCreep staleTaskReg
    CreepRole.Worker (CreepTarget.Upgrade 5) rfl (by decide) (by decide)
    (Or.inr (by decide))).1

/-- C6: a full tick of creep processing never changes the Role component of
any existing registry record — a record present before `runCreeps` keeps its
role, whatever happens to its task. -/
theorem role_invariant_processing (w : World) (creeps : List Creep)
    (info : Registry) (n : String) (role : CreepRole)
    (tgt : Option CreepTarget)
    (h : info n = some (role, tgt)) :
    ∃ tgt2, runCreeps w creeps info n = some (role, tgt2) := by
  induction creeps generalizing info tgt with
  | nil => exact ⟨tgt, h⟩
  | cons c rest ih =>
    obtain ⟨t2, h2⟩ := run_creep_preserves_role w c info n role tgt h
    have hstep : runCreeps w (c :: rest) info =
        runCreeps w rest (run_creep w c info).1 := rfl
    rw [hstep]
    exact ih (run_creep w c info).1 t2 h2

/-- C6 witness: a Builder record keeps its role across a processed tick. -/
theorem role_invariant_processing_witness :
    ∃ tgt2, runCreeps emptyWorld [roleInvCreep] roleInvReg "w6" =
      some (CreepRole.Builder, tgt2) :=
  role_invariant_processing emptyWorld [roleInvCreep] roleInvReg "w6"
    CreepRole.Builder (some (CreepTarget.Build 4)) (by decide)

/-- C7: when the energy check passes, the attempted creep gets Role Builder
exactly when the in-tick sequence number is even, and the sequence counter
advances exactly on a successful spawn. -/
theorem spawn_parity_and_counter (time n : Nat) (s : GameSpawn)
    (info : Registry)
    (hE : bodyCost ≤ s.roomEnergyAvailable) :
    (spawnStep time s info n).2.2 =
      some (spawnName time n, spawnRole n, s.spawnSucceeds) ∧
    (spawnRole n = CreepRole.Builder ↔ n % 2 = 0) ∧
    (spawnStep time s info n).2.1 = (if s.spawnSucceeds then n + 1 else n) := by
  refine ⟨?_, ?_, ?_⟩
  · unfold spawnStep
    cases hsucc : s.spawnSucceeds <;> simp [hE, hsucc]
  · unfold spawnRole
    by_cases hp : n % 2 = 0
    · simp [hp]
    · simp [hp]
  · unfold spawnStep
    cases hsucc : s.spawnSucceeds <;> simp [hE, hsucc]

/-- C7 witness: a failed attempt with sequence number 3 leaves the counter
at 3. -/
theorem spawn_parity_and_counter_witness :
    (spawnStep 12 { roomEnergyAvailable := 250, spawnSucceeds := false }
      (fun _ => none) 3).2.1 = 3 :=
  (spawn_parity_and_counter 12 3
    { roomEnergyAvailable := 250, spawnSucceeds := false }
    (fun _ => none) (by decide)).2.2

/-- C8: the memory cleanup runs exactly when the tick counter is a multiple
of 1000; when it runs it keeps precisely the persisted entries whose name is
a live creep name and deletes the rest, and in either case the registry
produced by the tick is the creep-processing and spawn-loop result alone —
the cleanup never touches it. -/
theorem reaper_interval_and_frame (time : Nat) (w : World)
    (creeps : List Creep) (spawns : List GameSpawn) (info : Registry)
    (memory : List String) :
    (game_loop time w creeps spawns info memory).2 =
      (if time % 1000 = 0 then
        memory.filter (fun nm => decide (nm ∈ creeps.map Creep.name))
      else memory) ∧
    (∀ nm, nm ∈ (game_loop time w creeps spawns info memory).2 ↔
      (nm ∈ memory ∧
        (if time % 1000 = 0 then nm ∈ creeps.map Creep.name else True))) ∧
    (game_loop time w creeps spawns info memory).1 =
      (runSpawnsAux time spawns (runCreeps w creeps info) 0).1 := by
  refine ⟨rfl, ?_, rfl⟩
  intro nm
  by_cases ht : time % 1000 = 0
  · simp [game_loop, memoryCleanup, ht, List.mem_filter]
  · simp [game_loop, memoryCleanup, ht]

/-- C9: a successful spawn creation overwrites the registry entry under the
generated name with the parity role and no task, whatever record was there
before. -/
theorem spawn_insert_overwrites (time n : Nat) (s : GameSpawn)
    (info : Registry)
    (hE : bodyCost ≤ s.roomEnergyAvailable)
    (hok : s.spawnSucceeds = true) :
    (spawnStep time s info n).1 (spawnName time n) =
      some (spawnRole n, none) := by
  simp [spawnStep, hE, hok, regInsert]

/-- C9 witness: the generated name "5-0" held a stale Worker record with a
Harvest task; after the successful spawn it holds (Builder, no task). -/
theorem spawn_insert_overwrites_witness :
    staleNameReg (spawnName 5 0) =
      some (CreepRole.Worker, some (CreepTarget.Harvest 1)) ∧
    (spawnStep 5 { roomEnergyAvailable := 300, spawnSucceeds := true }
      staleNameReg 0).1 (spawnName 5 0) = some (spawnRole 0, none) :=
  ⟨by decide,
   spawn_insert_overwrites 5 0
     { roomEnergyAvailable := 300, spawnSucceeds := true } staleNameReg
     (by decide) rfl⟩

/-- C10: processing one creep leaves every registry entry other than the one
under the creep's own name untouched. -/
theorem run_creep_frame (w : World) (c : Creep) (info : Registry)
    (n : String)
    (h : ¬ n = c.name) :
    (run_creep w c info).1 n = info n := by
  by_cases hsp : c.spawning <;> simp [run_creep, hsp, regInsert, h]

/-- C10 witness: the record under "other" survives a tick of the creep named
"w10" unchanged. -/
theorem run_creep_frame_witness :
    (run_creep emptyWorld frameCreep frameReg).1 "other" = frameReg "other" :=
  run_creep_frame emptyWorld frameCreep frameReg "other" (by decide)
